import Mathlib

/-!
Shallow embedding of `pallets/token-dealer/src/support.rs` (the XCM
settlement adapter of the token-dealer pallet): the `MultiCurrencyAdapter`
implementation of `TransactAsset` (`deposit_asset`, `withdraw_asset`), the
fungible matcher `IsConcreteWithGeneralKey::matches_fungible`, and the
currency resolver `CurrencyIdConverter::from_asset`.

Machine integers (`u128`, the runtime `Balance`) are modelled as `Nat`;
the checked narrowing `CheckedConversion::checked_from` (i.e.
`B::try_from(x).ok()` for an unsigned target `B`) is modelled as a bound
check against the target's capacity `Bmax` (for a `w`-bit unsigned target,
`Bmax = 2 ^ w`).  Byte strings (`Vec<u8>`) are `List Nat`.  The XCM v0
`MultiLocation` (`Null`, `X1` .. `X8`) is modelled as a list of junctions;
`MultiLocation::last` is `List.getLast?`.  Collaborators that the adapter
is generic over (account converter, token factory, native currency) are
explicit function parameters, and the ledger calls the adapter issues are
recorded in a trace so that "no ledger call is made" is a statement about
the returned trace.
-/

namespace TokenDealer

/-- Byte strings (`Vec<u8>`) as lists of naturals. -/
abbrev Bytes := List Nat

/-- Modelled from the spec: `token_factory::Ticker` (the `TokenId` of a
registered token) is an opaque identifier; the `token_factory` crate is not
among the sources, so we model it as a natural number. -/
abbrev Ticker := Nat

/-- XCM v0 `Junction` (payloads simplified where the adapter never inspects
them; only `Parent` and `GeneralKey` are inspected by this pallet). -/
inductive Junction
  | Parent
  | Parachain (id : Nat)
  | AccountId32 (id : Bytes)
  | AccountIndex64 (index : Nat)
  | AccountKey20 (key : Bytes)
  | PalletInstance (index : Nat)
  | GeneralIndex (index : Nat)
  | GeneralKey (key : Bytes)
  | OnlyChild
  deriving DecidableEq

/-- XCM v0 `MultiLocation` (`Null`, `X1(j)`, .., `X8(..)`) as a list of
junctions; `MultiLocation::X1(Junction::Parent)` is `[Junction.Parent]` and
`MultiLocation::last` is `List.getLast?`. -/
abbrev MultiLocation := List Junction

/-- XCM v0 `MultiAsset`. The adapter only ever destructures the
`ConcreteFungible { id, amount }` shape; all other shapes are carried so
that "not of the concrete fungible shape" is expressible. -/
inductive MultiAsset
  | None
  | All
  | AllFungible
  | AllNonFungible
  | AllAbstractFungible (id : Bytes)
  | AllAbstractNonFungible (cls : Bytes)
  | AllConcreteFungible (id : MultiLocation)
  | AllConcreteNonFungible (cls : MultiLocation)
  | AbstractFungible (id : Bytes) (amount : Nat)
  | AbstractNonFungible (cls : Bytes) (inst : Bytes)
  | ConcreteFungible (id : MultiLocation) (amount : Nat)
  | ConcreteNonFungible (cls : MultiLocation) (inst : Bytes)
  deriving DecidableEq

/-- Whether an asset descriptor is of the `ConcreteFungible` shape. -/
def MultiAsset.isConcreteFungible : MultiAsset → Bool
  | .ConcreteFungible _ _ => true
  | _ => false

/-- `token_factory::CurrencyId`: the closed two-case currency kind
(`Native` vs `Token(Ticker)`), per the spec's data model (the
`token_factory` crate itself is not among the sources; the adapter code
matches on exactly the `Token` variant, with `Native` the only other). -/
inductive CurrencyId
  | Native
  | Token (id : Ticker)
  deriving DecidableEq

/-- XCM v0 `Error` (first few variants). The `impl From<()> for Error` in
`xcm::v0` turns `()` into `Error::Undefined`; every `ok_or(())?` and
`map_err(|e| ())?` in the adapter therefore surfaces as `Undefined`. -/
inductive XcmError
  | Undefined
  | Unimplemented
  | UnhandledXcmVersion
  | UnhandledXcmMessage
  | Barrier
  | TooExpensive
  deriving DecidableEq

/-- The spec's error taxonomy for the adapter's four failure points, in the
order the code checks them: account resolution, currency resolution,
fungible matching, ledger call. -/
inductive FailKind
  | UnknownAccount
  | UnrecognizedAsset
  | AmountMismatch
  | LedgerRejected
  deriving DecidableEq

/-- `frame_support::traits::WithdrawReasons`, modelled at the single value
the adapter passes (`WithdrawReasons::TRANSFER`). -/
inductive WithdrawReasons
  | TRANSFER
  deriving DecidableEq

/-- `frame_support::traits::ExistenceRequirement`. -/
inductive ExistenceRequirement
  | KeepAlive
  | AllowDeath
  deriving DecidableEq

/-- A mutating ledger call issued by the adapter: token-factory mint/burn,
or native-currency deposit_creating/withdraw. -/
inductive LedgerCall (A : Type)
  | mint (token : Ticker) (who : A) (amount : Nat)
  | burn (token : Ticker) (who : A) (amount : Nat)
  | deposit_creating (who : A) (amount : Nat)
  | withdraw (who : A) (amount : Nat) (reasons : WithdrawReasons)
      (liveness : ExistenceRequirement)
  deriving DecidableEq

/-- `CheckedConversion::checked_from : u128 -> Option B` for an unsigned
target `B` of capacity `Bmax` (for a `w`-bit target, `Bmax = 2 ^ w`):
`B::try_from(x).ok()` succeeds exactly when the value fits, and never
wraps. -/
def checkedFrom (Bmax x : Nat) : Option Nat :=
  if x < Bmax then some x else none

/-- Modelled from the spec: the currency-key codec — the
`impl TryFrom<Vec<u8>> for CurrencyId` of `token_factory` is missing; per
the
spec a tagged byte-string key decodes to a `TokenId`, and a decoded key
yields the `Token` currency kind. The raw decoder stays an abstract
parameter. -/
def currencyIdTryFrom (decode : Bytes → Option Ticker) (key : Bytes) :
    Option CurrencyId :=
  (decode key).map CurrencyId.Token

namespace CurrencyIdConverter

/-- `CurrencyIdConverter::from_asset` (support.rs lines 205-215):
for a `ConcreteFungible { id: location, .. }`, return the configured relay
currency if `location == X1(Parent)`; else if the last junction is a
`GeneralKey(key)`, return `CurrencyId::try_from(key).ok()`; else (and for
every other asset shape) `None`. `try_from` is the `TryFrom<Vec<u8>>`
instance of `CurrencyId`, `relay` the configured `RelayChainCurrencyId`. -/
def from_asset (try_from : Bytes → Option CurrencyId) (relay : CurrencyId)
    (asset : MultiAsset) : Option CurrencyId :=
  match asset with
  | .ConcreteFungible location _ =>
      if location = [Junction.Parent] then
        some relay
      else
        match location.getLast? with
        | some (Junction.GeneralKey key) => try_from key
        | _ => none
  | _ => none

end CurrencyIdConverter

namespace IsConcreteWithGeneralKey

/-- `IsConcreteWithGeneralKey::matches_fungible` (support.rs lines
177-191): for a `ConcreteFungible { id, amount }`, if `id == X1(Parent)`
rescale the raw amount through `FromRelayChainBalance::convert` and
checked-convert into the balance type; else if the last junction of `id` is
a `GeneralKey(key)` whose bytes convert into a `CurrencyId`,
checked-convert the raw amount; otherwise `None`. `try_from` is the
`TryFrom<Vec<u8>>` instance of `CurrencyId`, `convert` the configured
`FromRelayChainBalance`, `Bmax` the capacity of the balance type `B`. -/
def matches_fungible (try_from : Bytes → Option CurrencyId)
    (convert : Nat → Nat) (Bmax : Nat) (a : MultiAsset) : Option Nat :=
  match a with
  | .ConcreteFungible id amount =>
      if id = [Junction.Parent] then
        checkedFrom Bmax (convert amount)
      else
        match id.getLast? with
        | some (Junction.GeneralKey key) =>
            if (try_from key).isSome then checkedFrom Bmax amount else none
        | _ => none
  | _ => none

end IsConcreteWithGeneralKey

/-- The collaborators `MultiCurrencyAdapter` is generic over, as plain
functions: `AccountIdConverter::from_location`,
`CurrencyIdConverter::from_asset`, `Matcher::matches_fungible`,
`TokenFactory::mint`/`burn` (which may fail with a token-factory error
`TE`), and `NativeCurrency::withdraw` (which may fail with a
native-currency error `NE`; `deposit_creating` is infallible). -/
structure AdapterEnv (A TE NE : Type) where
  from_location : MultiLocation → Option A
  from_asset : MultiAsset → Option CurrencyId
  matches_fungible : MultiAsset → Option Nat
  mint : Ticker → A → Nat → Except TE Unit
  burn : Ticker → A → Nat → Except TE Unit
  withdraw : A → Nat → WithdrawReasons → ExistenceRequirement →
      Except NE Unit

namespace MultiCurrencyAdapter

variable {A TE NE : Type}

/-- `MultiCurrencyAdapter::deposit_asset` (support.rs lines 76-110):
resolve the account (`ok_or(())?`), the currency (`ok_or(())?`) and the
amount (`ok_or(())?`); then if the currency is `Token(token_id)` call
`TokenFactory::mint` (its error discarded by `map_err(|e| ())?`), else call
`NativeCurrency::deposit_creating` (infallible). Every `()` failure
converts to `XcmError.Undefined`. The second component records the
mutating ledger calls made, in order. -/
def deposit_asset (env : AdapterEnv A TE NE) (asset : MultiAsset)
    (location : MultiLocation) :
    Except XcmError Unit × List (LedgerCall A) :=
  match env.from_location location with
  | none => (.error .Undefined, [])
  | some who =>
    match env.from_asset asset with
    | none => (.error .Undefined, [])
    | some currency =>
      match env.matches_fungible asset with
      | none => (.error .Undefined, [])
      | some amount =>
        match currency with
        | .Token token_id =>
          match env.mint token_id who amount with
          | .error _ => (.error .Undefined, [.mint token_id who amount])
          | .ok _ => (.ok (), [.mint token_id who amount])
        | .Native => (.ok (), [.deposit_creating who amount])

/-- `MultiCurrencyAdapter::withdraw_asset` (support.rs lines 112-163): the
same three resolution steps as `deposit_asset`; then if the currency is
`Token(token_id)` call `TokenFactory::burn` (error discarded), else call
`NativeCurrency::withdraw(who, amount, WithdrawReasons::TRANSFER,
ExistenceRequirement::AllowDeath)` (error discarded). On success returns
`Ok(asset.clone())`. -/
def withdraw_asset (env : AdapterEnv A TE NE) (asset : MultiAsset)
    (location : MultiLocation) :
    Except XcmError MultiAsset × List (LedgerCall A) :=
  match env.from_location location with
  | none => (.error .Undefined, [])
  | some who =>
    match env.from_asset asset with
    | none => (.error .Undefined, [])
    | some currency =>
      match env.matches_fungible asset with
      | none => (.error .Undefined, [])
      | some amount =>
        match currency with
        | .Token token_id =>
          match env.burn token_id who amount with
          | .error _ => (.error .Undefined, [.burn token_id who amount])
          | .ok _ => (.ok asset, [.burn token_id who amount])
        | .Native =>
          match env.withdraw who amount .TRANSFER .AllowDeath with
          | .error _ =>
              (.error .Undefined,
               [.withdraw who amount .TRANSFER .AllowDeath])
          | .ok _ =>
              (.ok asset,
               [.withdraw who amount .TRANSFER .AllowDeath])

/-- `deposit_asset` instrumented with the spec's error taxonomy: the same
control flow, but each failure point is labelled with the `FailKind` of the
step that failed instead of being collapsed to `()`. Erasing the label
(`deposit_erase`) recovers `deposit_asset` exactly. -/
def deposit_asset_kinded (env : AdapterEnv A TE NE) (asset : MultiAsset)
    (location : MultiLocation) :
    Except FailKind Unit × List (LedgerCall A) :=
  match env.from_location location with
  | none => (.error .UnknownAccount, [])
  | some who =>
    match env.from_asset asset with
    | none => (.error .UnrecognizedAsset, [])
    | some currency =>
      match env.matches_fungible asset with
      | none => (.error .AmountMismatch, [])
      | some amount =>
        match currency with
        | .Token token_id =>
          match env.mint token_id who amount with
          | .error _ =>
              (.error .LedgerRejected, [.mint token_id who amount])
          | .ok _ => (.ok (), [.mint token_id who amount])
        | .Native => (.ok (), [.deposit_creating who amount])

/-- `withdraw_asset` instrumented with the spec's error taxonomy, exactly
as `deposit_asset_kinded` instruments `deposit_asset`. -/
def withdraw_asset_kinded (env : AdapterEnv A TE NE) (asset : MultiAsset)
    (location : MultiLocation) :
    Except FailKind MultiAsset × List (LedgerCall A) :=
  match env.from_location location with
  | none => (.error .UnknownAccount, [])
  | some who =>
    match env.from_asset asset with
    | none => (.error .UnrecognizedAsset, [])
    | some currency =>
      match env.matches_fungible asset with
      | none => (.error .AmountMismatch, [])
      | some amount =>
        match currency with
        | .Token token_id =>
          match env.burn token_id who amount with
          | .error _ =>
              (.error .LedgerRejected, [.burn token_id who amount])
          | .ok _ => (.ok asset, [.burn token_id who amount])
        | .Native =>
          match env.withdraw who amount .TRANSFER .AllowDeath with
          | .error _ =>
              (.error .LedgerRejected,
               [.withdraw who amount .TRANSFER .AllowDeath])
          | .ok _ =>
              (.ok asset,
               [.withdraw who amount .TRANSFER .AllowDeath])

end MultiCurrencyAdapter

/-- The adapter wired the way the runtime wires it: the currency resolver
is `CurrencyIdConverter::from_asset` and the matcher is
`IsConcreteWithGeneralKey::matches_fungible`, both over the same
`TryFrom<Vec<u8>>` instance `try_from` of `CurrencyId`; account converter
and the two ledgers stay abstract. -/
def mkEnv {A TE NE : Type} (from_location : MultiLocation → Option A)
    (try_from : Bytes → Option CurrencyId) (relay : CurrencyId)
    (convert : Nat → Nat) (Bmax : Nat)
    (mint burn : Ticker → A → Nat → Except TE Unit)
    (wd : A → Nat → WithdrawReasons → ExistenceRequirement →
      Except NE Unit) : AdapterEnv A TE NE :=
  ⟨from_location, CurrencyIdConverter.from_asset try_from relay,
   IsConcreteWithGeneralKey.matches_fungible try_from convert Bmax,
   mint, burn, wd⟩

/-- Modelled from the spec: the runtime's `FromRelayChainBalance`
conversion rescaling 12-decimal relay amounts into 18-decimal local
amounts, `convert(x) = x * 1_000_000` (the runtime configuration is not
among the sources). -/
def fromRelayChainBalance (x : Nat) : Nat :=
  x * 1000000

/-- Net token-supply change for token `t` and account `w` implied by a
trace of ledger calls: mint adds, burn subtracts. -/
def netTokenDelta {A : Type} [DecidableEq A] (t : Ticker) (w : A)
    (calls : List (LedgerCall A)) : Int :=
  calls.foldl
    (fun acc c =>
      match c with
      | .mint t' w' amount =>
          if t' = t ∧ w' = w then acc + amount else acc
      | .burn t' w' amount =>
          if t' = t ∧ w' = w then acc - amount else acc
      | _ => acc)
    0

/-- A decoder accepting exactly the one-byte key `[7]` as token `7`; used
to exercise the adapter on concrete inputs. -/
def decode7 : Bytes → Option Ticker :=
  fun key => if key = [7] then some 7 else none

/-- The currency-key codec induced by `decode7`. -/
def tryFrom7 : Bytes → Option CurrencyId :=
  currencyIdTryFrom decode7

/-- A fully concrete adapter environment: every location resolves to
account `0`, the runtime-wired resolver and matcher over `decode7`, relay
currency `Native`, the spec's 12-to-18-decimal rescale, a 128-bit balance
type, and ledgers that always succeed. -/
def envDemo : AdapterEnv Nat Unit Unit :=
  mkEnv (fun _ => some 0) tryFrom7 CurrencyId.Native fromRelayChainBalance
    (2 ^ 128) (fun _ _ _ => .ok ()) (fun _ _ _ => .ok ())
    (fun _ _ _ _ => .ok ())

section Helpers

variable {A TE NE : Type}

/-- A location whose last junction is a `GeneralKey` is not the
single-junction `X1(Parent)` location. -/
theorem last_generalKey_ne_parent {loc : MultiLocation} {key : Bytes}
    (h : loc.getLast? = some (Junction.GeneralKey key)) :
    loc ≠ [Junction.Parent] := by
  intro he
  subst he
  simp [List.getLast?] at h

/-- `checked_from` returns a value exactly when it fits. -/
theorem checkedFrom_some {Bmax x b : Nat} :
    checkedFrom Bmax x = some b ↔ b = x ∧ x < Bmax := by
  unfold checkedFrom
  split <;> rename_i hcond <;> constructor
  · intro h
    exact ⟨(Option.some.inj h).symm, hcond⟩
  · rintro ⟨rfl, h⟩
    rfl
  · intro h
    exact Option.noConfusion h
  · rintro ⟨rfl, h⟩
    exact absurd h hcond

/-- The currency resolver rejects every non-`ConcreteFungible` shape. -/
theorem from_asset_none_of_not_cf (try_from : Bytes → Option CurrencyId)
    (relay : CurrencyId) (a : MultiAsset)
    (h : a.isConcreteFungible = false) :
    CurrencyIdConverter.from_asset try_from relay a = none := by
  cases a <;> first
    | rfl
    | simp [MultiAsset.isConcreteFungible] at h

/-- The fungible matcher rejects every non-`ConcreteFungible` shape. -/
theorem matches_fungible_none_of_not_cf
    (try_from : Bytes → Option CurrencyId) (convert : Nat → Nat)
    (Bmax : Nat) (a : MultiAsset) (h : a.isConcreteFungible = false) :
    IsConcreteWithGeneralKey.matches_fungible try_from convert Bmax a =
      none := by
  cases a <;> first
    | rfl
    | simp [MultiAsset.isConcreteFungible] at h

/-- Erasing the failure labels of `deposit_asset_kinded` to the constant
`Undefined` recovers `deposit_asset` exactly. -/
theorem deposit_erase (env : AdapterEnv A TE NE) (asset : MultiAsset)
    (location : MultiLocation) :
    MultiCurrencyAdapter.deposit_asset env asset location =
      ((MultiCurrencyAdapter.deposit_asset_kinded env asset
          location).1.mapError (fun _ => XcmError.Undefined),
       (MultiCurrencyAdapter.deposit_asset_kinded env asset location).2) := by
  cases hl : env.from_location location with
  | none =>
      simp [MultiCurrencyAdapter.deposit_asset,
        MultiCurrencyAdapter.deposit_asset_kinded, hl, Except.mapError]
  | some who =>
    cases ha : env.from_asset asset with
    | none =>
        simp [MultiCurrencyAdapter.deposit_asset,
          MultiCurrencyAdapter.deposit_asset_kinded, hl, ha, Except.mapError]
    | some currency =>
      cases hm : env.matches_fungible asset with
      | none =>
          simp [MultiCurrencyAdapter.deposit_asset,
            MultiCurrencyAdapter.deposit_asset_kinded, hl, ha, hm,
            Except.mapError]
      | some amount =>
        cases currency with
        | Native =>
            simp [MultiCurrencyAdapter.deposit_asset,
              MultiCurrencyAdapter.deposit_asset_kinded, hl, ha, hm,
              Except.mapError]
        | Token token_id =>
          cases hmint : env.mint token_id who amount with
          | error e =>
              simp [MultiCurrencyAdapter.deposit_asset,
                MultiCurrencyAdapter.deposit_asset_kinded, hl, ha, hm,
                hmint, Except.mapError]
          | ok u =>
              simp [MultiCurrencyAdapter.deposit_asset,
                MultiCurrencyAdapter.deposit_asset_kinded, hl, ha, hm,
                hmint, Except.mapError]

/-- Erasing the failure labels of `withdraw_asset_kinded` to the constant
`Undefined` recovers `withdraw_asset` exactly. -/
theorem withdraw_erase (env : AdapterEnv A TE NE) (asset : MultiAsset)
    (location : MultiLocation) :
    MultiCurrencyAdapter.withdraw_asset env asset location =
      ((MultiCurrencyAdapter.withdraw_asset_kinded env asset
          location).1.mapError (fun _ => XcmError.Undefined),
       (MultiCurrencyAdapter.withdraw_asset_kinded env asset location).2) := by
  cases hl : env.from_location location with
  | none =>
      simp [MultiCurrencyAdapter.withdraw_asset,
        MultiCurrencyAdapter.withdraw_asset_kinded, hl, Except.mapError]
  | some who =>
    cases ha : env.from_asset asset with
    | none =>
        simp [MultiCurrencyAdapter.withdraw_asset,
          MultiCurrencyAdapter.withdraw_asset_kinded, hl, ha,
          Except.mapError]
    | some currency =>
      cases hm : env.matches_fungible asset with
      | none =>
          simp [MultiCurrencyAdapter.withdraw_asset,
            MultiCurrencyAdapter.withdraw_asset_kinded, hl, ha, hm,
            Except.mapError]
      | some amount =>
        cases currency with
        | Native =>
          cases hw : env.withdraw who amount .TRANSFER .AllowDeath with
          | error e =>
              simp [MultiCurrencyAdapter.withdraw_asset,
                MultiCurrencyAdapter.withdraw_asset_kinded, hl, ha, hm, hw,
                Except.mapError]
          | ok u =>
              simp [MultiCurrencyAdapter.withdraw_asset,
                MultiCurrencyAdapter.withdraw_asset_kinded, hl, ha, hm, hw,
                Except.mapError]
        | Token token_id =>
          cases hb : env.burn token_id who amount with
          | error e =>
              simp [MultiCurrencyAdapter.withdraw_asset,
                MultiCurrencyAdapter.withdraw_asset_kinded, hl, ha, hm, hb,
                Except.mapError]
          | ok u =>
              simp [MultiCurrencyAdapter.withdraw_asset,
                MultiCurrencyAdapter.withdraw_asset_kinded, hl, ha, hm, hb,
                Except.mapError]

end Helpers

/-- C1: for every `(asset, location)` input to `deposit_asset` and to
`withdraw_asset`, if any of the three resolution steps fails (account
resolution, currency resolution, or the fungible matcher returns `none`),
the operation returns an error and the trace of mutating ledger calls is
empty: no mint, burn, deposit_creating or withdraw is issued, so ledger
state is only touched after all three resolutions succeed. -/
theorem resolution_failure_aborts_before_ledger {A TE NE : Type}
    (env : AdapterEnv A TE NE) (asset : MultiAsset)
    (location : MultiLocation)
    (h : env.from_location location = none ∨
      env.from_asset asset = none ∨ env.matches_fungible asset = none) :
    MultiCurrencyAdapter.deposit_asset env asset location =
        (.error .Undefined, []) ∧
      MultiCurrencyAdapter.withdraw_asset env asset location =
        (.error .Undefined, []) := by
  cases hl : env.from_location location with
  | none =>
      constructor <;>
        simp [MultiCurrencyAdapter.deposit_asset,
          MultiCurrencyAdapter.withdraw_asset, hl]
  | some who =>
    cases ha : env.from_asset asset with
    | none =>
        constructor <;>
          simp [MultiCurrencyAdapter.deposit_asset,
            MultiCurrencyAdapter.withdraw_asset, hl, ha]
    | some c =>
      cases hm : env.matches_fungible asset with
      | none =>
          constructor <;>
            simp [MultiCurrencyAdapter.deposit_asset,
              MultiCurrencyAdapter.withdraw_asset, hl, ha, hm]
      | some amount => rcases h with h | h | h <;> simp_all

/-- C1 witness: in the concrete environment, the asset shape
`MultiAsset.None` makes the currency resolution fail, and both operations
return the error with an empty ledger-call trace. -/
theorem resolution_failure_aborts_before_ledger_witness :
    MultiCurrencyAdapter.deposit_asset envDemo MultiAsset.None [] =
        (.error .Undefined, []) ∧
      MultiCurrencyAdapter.withdraw_asset envDemo MultiAsset.None [] =
        (.error .Undefined, []) :=
  resolution_failure_aborts_before_ledger envDemo MultiAsset.None []
    (Or.inr (Or.inl rfl))

/-- C3: currency resolution: a concrete-fungible descriptor whose last
location junction is a `GeneralKey` that decodes to token `i` resolves to
exactly `Token i`; the single-junction `Parent` location resolves to the
configured relay currency; an undecodable key resolves to `none` (the
resolver is a total Lean function, hence panic-free, and yields no default
currency). -/
theorem from_asset_resolution (decode : Bytes → Option Ticker)
    (relay : CurrencyId) :
    (∀ loc amount key i,
        loc.getLast? = some (Junction.GeneralKey key) →
        decode key = some i →
        CurrencyIdConverter.from_asset (currencyIdTryFrom decode) relay
            (.ConcreteFungible loc amount) =
          some (CurrencyId.Token i)) ∧
    (∀ amount,
        CurrencyIdConverter.from_asset (currencyIdTryFrom decode) relay
            (.ConcreteFungible [Junction.Parent] amount) = some relay) ∧
    (∀ loc amount key,
        loc.getLast? = some (Junction.GeneralKey key) →
        decode key = none →
        CurrencyIdConverter.from_asset (currencyIdTryFrom decode) relay
            (.ConcreteFungible loc amount) = none) := by
  refine ⟨?_, ?_, ?_⟩
  · intro loc amount key i hlast hdec
    have hne := last_generalKey_ne_parent hlast
    simp [CurrencyIdConverter.from_asset, hne, hlast, currencyIdTryFrom,
      hdec]
  · intro amount
    simp [CurrencyIdConverter.from_asset]
  · intro loc amount key hlast hdec
    have hne := last_generalKey_ne_parent hlast
    simp [CurrencyIdConverter.from_asset, hne, hlast, currencyIdTryFrom,
      hdec]

/-- C3 witness: with the decoder `decode7` and relay currency `Native`,
the key `[7]` resolves to `Token 7`, the `Parent` location to `Native`,
and the undecodable key `[9]` to `none`. -/
theorem from_asset_resolution_witness :
    CurrencyIdConverter.from_asset tryFrom7 CurrencyId.Native
        (.ConcreteFungible [Junction.GeneralKey [7]] 5) =
      some (CurrencyId.Token 7) ∧
    CurrencyIdConverter.from_asset tryFrom7 CurrencyId.Native
        (.ConcreteFungible [Junction.Parent] 5) = some CurrencyId.Native ∧
    CurrencyIdConverter.from_asset tryFrom7 CurrencyId.Native
        (.ConcreteFungible [Junction.GeneralKey [9]] 5) = none :=
  ⟨(from_asset_resolution decode7 CurrencyId.Native).1
      [Junction.GeneralKey [7]] 5 [7] 7 rfl rfl,
   (from_asset_resolution decode7 CurrencyId.Native).2.1 5,
   (from_asset_resolution decode7 CurrencyId.Native).2.2
      [Junction.GeneralKey [9]] 5 [9] rfl rfl⟩

/-- C9: the counterparty-native marker is recognized only for the exact
single-junction `Parent` location: for a concrete-fungible asset whose
location contains `Parent` together with other junctions, both the
currency resolver and the fungible matcher skip the relay branch and apply
the general-key check to the location's last junction. -/
theorem parent_marker_exact (try_from : Bytes → Option CurrencyId)
    (relay : CurrencyId) (convert : Nat → Nat) (Bmax : Nat)
    (loc : MultiLocation) (amount : Nat)
    (hmem : Junction.Parent ∈ loc) (hne : loc ≠ [Junction.Parent]) :
    CurrencyIdConverter.from_asset try_from relay
        (.ConcreteFungible loc amount) =
      (match loc.getLast? with
        | some (Junction.GeneralKey key) => try_from key
        | _ => none) ∧
    IsConcreteWithGeneralKey.matches_fungible try_from convert Bmax
        (.ConcreteFungible loc amount) =
      (match loc.getLast? with
        | some (Junction.GeneralKey key) =>
            if (try_from key).isSome then checkedFrom Bmax amount else none
        | _ => none) := by
  constructor
  · simp [CurrencyIdConverter.from_asset, hne]
  · simp [IsConcreteWithGeneralKey.matches_fungible, hne]

/-- C9 witness: the two-junction location `[Parent, GeneralKey [7]]`
contains the `Parent` junction yet is resolved through its last junction's
key, giving `Token 7` and the unrescaled amount. -/
theorem parent_marker_exact_witness :
    CurrencyIdConverter.from_asset tryFrom7 CurrencyId.Native
        (.ConcreteFungible [Junction.Parent, Junction.GeneralKey [7]] 5) =
      some (CurrencyId.Token 7) ∧
    IsConcreteWithGeneralKey.matches_fungible tryFrom7
        fromRelayChainBalance (2 ^ 128)
        (.ConcreteFungible [Junction.Parent, Junction.GeneralKey [7]] 5) =
      some 5 := by
  have h := parent_marker_exact tryFrom7 CurrencyId.Native
    fromRelayChainBalance (2 ^ 128)
    [Junction.Parent, Junction.GeneralKey [7]] 5 (by decide) (by decide)
  exact ⟨h.1.trans rfl, h.2.trans rfl⟩

/-- C10: currency resolution returns `none` for every descriptor that is
not of the concrete-fungible shape, whatever marker or key such a
descriptor carries in another representation: the resolver inspects only
concrete-fungible descriptors. -/
theorem from_asset_rejects_nonconcrete
    (try_from : Bytes → Option CurrencyId) (relay : CurrencyId)
    (a : MultiAsset) (h : a.isConcreteFungible = false) :
    CurrencyIdConverter.from_asset try_from relay a = none :=
  from_asset_none_of_not_cf try_from relay a h

/-- C10 witness: `AllConcreteFungible [Parent]` carries the Parent marker
in a non-concrete-fungible shape and resolves to `none`; so does a
concrete non-fungible descriptor carrying the decodable key `[7]`. -/
theorem from_asset_rejects_nonconcrete_witness :
    CurrencyIdConverter.from_asset tryFrom7 CurrencyId.Native
        (.AllConcreteFungible [Junction.Parent]) = none ∧
    CurrencyIdConverter.from_asset tryFrom7 CurrencyId.Native
        (.ConcreteNonFungible [Junction.GeneralKey [7]] []) = none :=
  ⟨from_asset_rejects_nonconcrete tryFrom7 CurrencyId.Native
      (.AllConcreteFungible [Junction.Parent]) rfl,
   from_asset_rejects_nonconcrete tryFrom7 CurrencyId.Native
      (.ConcreteNonFungible [Junction.GeneralKey [7]] []) rfl⟩

/-- C4: every conversion of the (possibly rescaled) raw amount into the
balance type of capacity `Bmax` is a checked conversion: a value whose
converted amount does not fit yields `none` (surfacing as the matcher
failure), and every amount the matcher returns is below the capacity and
is exactly the rescaled (`Parent` location) or raw (general-key location)
amount — never a wrapped-around or truncated value. -/
theorem matches_fungible_checked (try_from : Bytes → Option CurrencyId)
    (convert : Nat → Nat) (Bmax : Nat) :
    (∀ amount, Bmax ≤ convert amount →
        IsConcreteWithGeneralKey.matches_fungible try_from convert Bmax
          (.ConcreteFungible [Junction.Parent] amount) = none) ∧
    (∀ loc amount key,
        loc.getLast? = some (Junction.GeneralKey key) → Bmax ≤ amount →
        IsConcreteWithGeneralKey.matches_fungible try_from convert Bmax
          (.ConcreteFungible loc amount) = none) ∧
    (∀ a b,
        IsConcreteWithGeneralKey.matches_fungible try_from convert Bmax a =
          some b → b < Bmax) ∧
    (∀ loc amount b,
        IsConcreteWithGeneralKey.matches_fungible try_from convert Bmax
            (.ConcreteFungible loc amount) = some b →
        (loc = [Junction.Parent] ∧ b = convert amount) ∨ b = amount) := by
  refine ⟨?_, ?_, ?_, ?_⟩
  · intro amount hge
    simp [IsConcreteWithGeneralKey.matches_fungible, checkedFrom,
      Nat.not_lt.mpr hge]
  · intro loc amount key hlast hge
    have hne := last_generalKey_ne_parent hlast
    simp [IsConcreteWithGeneralKey.matches_fungible, hne, hlast,
      checkedFrom, Nat.not_lt.mpr hge]
  · intro a b h
    unfold IsConcreteWithGeneralKey.matches_fungible at h
    repeat' split at h
    all_goals first
      | exact Option.noConfusion h
      | (obtain ⟨hb, hlt⟩ := checkedFrom_some.mp h; omega)
  · intro loc amount b h
    simp only [IsConcreteWithGeneralKey.matches_fungible] at h
    repeat' split at h
    all_goals first
      | exact Option.noConfusion h
      | (obtain ⟨hb, hlt⟩ := checkedFrom_some.mp h
         first
           | exact Or.inl ⟨by assumption, hb⟩
           | exact Or.inr hb)

/-- C4 witness: with capacity `100`: the rescale of `1` to `1_000_000`
overflows and yields `none`; the raw amount `100` at a general-key
location does not fit and yields `none`; the returned amount `5` is below
the capacity and is the raw amount, not a truncation. -/
theorem matches_fungible_checked_witness :
    IsConcreteWithGeneralKey.matches_fungible tryFrom7
        fromRelayChainBalance 100
        (.ConcreteFungible [Junction.Parent] 1) = none ∧
    IsConcreteWithGeneralKey.matches_fungible tryFrom7
        fromRelayChainBalance 100
        (.ConcreteFungible [Junction.GeneralKey [7]] 100) = none ∧
    (5 : Nat) < 100 ∧
    ((([Junction.GeneralKey [7]] : MultiLocation) = [Junction.Parent] ∧
        (5 : Nat) = fromRelayChainBalance 5) ∨ (5 : Nat) = 5) :=
  ⟨(matches_fungible_checked tryFrom7 fromRelayChainBalance 100).1 1
      (by decide),
   (matches_fungible_checked tryFrom7 fromRelayChainBalance 100).2.1
      [Junction.GeneralKey [7]] 100 [7] rfl (Nat.le_refl 100),
   (matches_fungible_checked tryFrom7 fromRelayChainBalance 100).2.2.1
      (.ConcreteFungible [Junction.GeneralKey [7]] 5) 5 rfl,
   (matches_fungible_checked tryFrom7 fromRelayChainBalance 100).2.2.2
      [Junction.GeneralKey [7]] 5 5 rfl⟩

/-- C5: deposit of a concrete-fungible asset at the `Parent` location with
raw amount `1_000_000_000_000`, under the rescale
`convert(x) = x * 1_000_000` and relay currency `Native`, resolves to the
local amount `1_000_000_000_000_000_000` and is routed to the native
ledger's `deposit_creating` call, not to the token ledger. -/
theorem relay_deposit_scenario :
    MultiCurrencyAdapter.deposit_asset envDemo
        (.ConcreteFungible [Junction.Parent] 1000000000000) [] =
      (.ok (), [.deposit_creating 0 1000000000000000000]) := by
  rfl

/-- C6: for every `(asset, location)` pair that resolves to the token
path, deposit and withdraw hand the token ledger the same amount — the
value of the fungible matcher on the asset, a deterministic function of
the descriptor — so the mint and burn calls carry equal amounts and the
net token-supply change over the two traces is zero. -/
theorem token_deposit_withdraw_balanced {A TE NE : Type} [DecidableEq A]
    (env : AdapterEnv A TE NE) (asset : MultiAsset)
    (location : MultiLocation) (who : A) (token_id : Ticker)
    (amount : Nat)
    (hl : env.from_location location = some who)
    (hc : env.from_asset asset = some (CurrencyId.Token token_id))
    (hm : env.matches_fungible asset = some amount) :
    (MultiCurrencyAdapter.deposit_asset env asset location).2 =
        [.mint token_id who amount] ∧
      (MultiCurrencyAdapter.withdraw_asset env asset location).2 =
        [.burn token_id who amount] ∧
      netTokenDelta token_id who
        ((MultiCurrencyAdapter.deposit_asset env asset location).2 ++
          (MultiCurrencyAdapter.withdraw_asset env asset location).2) =
        0 := by
  have hd : (MultiCurrencyAdapter.deposit_asset env asset location).2 =
      [LedgerCall.mint token_id who amount] := by
    cases hmint : env.mint token_id who amount <;>
      simp [MultiCurrencyAdapter.deposit_asset, hl, hc, hm, hmint]
  have hw : (MultiCurrencyAdapter.withdraw_asset env asset location).2 =
      [LedgerCall.burn token_id who amount] := by
    cases hburn : env.burn token_id who amount <;>
      simp [MultiCurrencyAdapter.withdraw_asset, hl, hc, hm, hburn]
  refine ⟨hd, hw, ?_⟩
  rw [hd, hw]
  simp [netTokenDelta]

/-- C6 witness: the spec's token scenario — key `[7]`, raw amount `500` —
mints and burns exactly `(7, account 0, 500)`, for a zero net supply
change. -/
theorem token_deposit_withdraw_balanced_witness :
    (MultiCurrencyAdapter.deposit_asset envDemo
        (.ConcreteFungible [Junction.GeneralKey [7]] 500) []).2 =
        [.mint 7 0 500] ∧
      (MultiCurrencyAdapter.withdraw_asset envDemo
          (.ConcreteFungible [Junction.GeneralKey [7]] 500) []).2 =
        [.burn 7 0 500] ∧
      netTokenDelta 7 0
        ((MultiCurrencyAdapter.deposit_asset envDemo
            (.ConcreteFungible [Junction.GeneralKey [7]] 500) []).2 ++
          (MultiCurrencyAdapter.withdraw_asset envDemo
            (.ConcreteFungible [Junction.GeneralKey [7]] 500) []).2) =
        0 :=
  token_deposit_withdraw_balanced envDemo
    (.ConcreteFungible [Junction.GeneralKey [7]] 500) [] 0 7 500 rfl rfl
    rfl

/-- C7: whenever `withdraw_asset` succeeds, the returned value is exactly
the original input asset descriptor, unchanged (including its raw,
unrescaled amount). -/
theorem withdraw_returns_original_asset {A TE NE : Type}
    (env : AdapterEnv A TE NE) (asset : MultiAsset)
    (location : MultiLocation) (r : MultiAsset)
    (h : (MultiCurrencyAdapter.withdraw_asset env asset location).1 =
      .ok r) :
    r = asset := by
  unfold MultiCurrencyAdapter.withdraw_asset at h
  repeat' split at h
  all_goals simp_all

/-- C7 witness: a successful concrete withdraw returns its own input
descriptor. -/
theorem withdraw_returns_original_asset_witness :
    MultiAsset.ConcreteFungible [Junction.GeneralKey [7]] 5 =
      MultiAsset.ConcreteFungible [Junction.GeneralKey [7]] 5 :=
  withdraw_returns_original_asset envDemo
    (.ConcreteFungible [Junction.GeneralKey [7]] 5) []
    (.ConcreteFungible [Junction.GeneralKey [7]] 5) rfl

/-- C8: all four failure kinds are collapsed to one indistinguishable
error value at the public interface: each operation equals its
step-labelled instrumentation with every label erased to the constant
`Undefined`, and every error either operation returns is that single
value — so a caller cannot tell which step failed from the error alone. -/
theorem failures_collapse_to_single_error {A TE NE : Type}
    (env : AdapterEnv A TE NE) (asset : MultiAsset)
    (location : MultiLocation) :
    MultiCurrencyAdapter.deposit_asset env asset location =
        ((MultiCurrencyAdapter.deposit_asset_kinded env asset
            location).1.mapError (fun _ => XcmError.Undefined),
         (MultiCurrencyAdapter.deposit_asset_kinded env asset
            location).2) ∧
      MultiCurrencyAdapter.withdraw_asset env asset location =
        ((MultiCurrencyAdapter.withdraw_asset_kinded env asset
            location).1.mapError (fun _ => XcmError.Undefined),
         (MultiCurrencyAdapter.withdraw_asset_kinded env asset
            location).2) ∧
      (∀ e, (MultiCurrencyAdapter.deposit_asset env asset location).1 =
          .error e → e = .Undefined) ∧
      (∀ e, (MultiCurrencyAdapter.withdraw_asset env asset location).1 =
          .error e → e = .Undefined) := by
  refine ⟨deposit_erase env asset location,
    withdraw_erase env asset location, ?_, ?_⟩
  · intro e he
    rw [deposit_erase env asset location] at he
    cases hk : (MultiCurrencyAdapter.deposit_asset_kinded env asset
        location).1 with
    | error k =>
        rw [hk] at he
        simp [Except.mapError] at he
        simp [he]
    | ok u =>
        rw [hk] at he
        simp [Except.mapError] at he
  · intro e he
    rw [withdraw_erase env asset location] at he
    cases hk : (MultiCurrencyAdapter.withdraw_asset_kinded env asset
        location).1 with
    | error k =>
        rw [hk] at he
        simp [Except.mapError] at he
        simp [he]
    | ok u =>
        rw [hk] at he
        simp [Except.mapError] at he

/-- C8 witness: the concrete failing deposit (unrecognized asset shape
`MultiAsset.None`) instantiates the collapse: its erasure equation holds
and its returned error is the single `Undefined` value. -/
theorem failures_collapse_witness :
    MultiCurrencyAdapter.deposit_asset envDemo MultiAsset.None [] =
        ((MultiCurrencyAdapter.deposit_asset_kinded envDemo
            MultiAsset.None []).1.mapError (fun _ => XcmError.Undefined),
         (MultiCurrencyAdapter.deposit_asset_kinded envDemo
            MultiAsset.None []).2) ∧
      XcmError.Undefined = XcmError.Undefined :=
  ⟨(failures_collapse_to_single_error envDemo MultiAsset.None []).1,
   (failures_collapse_to_single_error envDemo MultiAsset.None
      []).2.2.1 XcmError.Undefined rfl⟩

/-- C2 counterexample: `AbstractFungible [] 10` is not of the
concrete-fungible shape and its account resolves in the concrete
environment, yet both operations fail at the currency-resolution step —
the `UnrecognizedAsset` kind — and not with the fungible-matcher
`AmountMismatch` kind the claim names. -/
theorem nonfungible_amount_mismatch_cex :
    (MultiCurrencyAdapter.deposit_asset_kinded envDemo
        (.AbstractFungible [] 10) []).1 = .error .UnrecognizedAsset ∧
      (MultiCurrencyAdapter.withdraw_asset_kinded envDemo
          (.AbstractFungible [] 10) []).1 =
        .error .UnrecognizedAsset ∧
      FailKind.UnrecognizedAsset ≠ FailKind.AmountMismatch :=
  ⟨rfl, rfl, by decide⟩

/-- C2 amended: for every asset descriptor that is not of the
concrete-fungible shape, both `deposit_asset` and `withdraw_asset` fail
with the single collapsed error and no ledger call, regardless of any
marker or key the descriptor carries; the step that fails (when the
account resolves) is currency resolution — the `UnrecognizedAsset` kind —
because the currency resolver itself rejects every non-concrete-fungible
shape before the fungible matcher is consulted. -/
theorem nonfungible_shape_rejected {A TE NE : Type}
    (from_location : MultiLocation → Option A)
    (try_from : Bytes → Option CurrencyId) (relay : CurrencyId)
    (convert : Nat → Nat) (Bmax : Nat)
    (mint burn : Ticker → A → Nat → Except TE Unit)
    (wd : A → Nat → WithdrawReasons → ExistenceRequirement →
      Except NE Unit)
    (a : MultiAsset) (location : MultiLocation)
    (h : a.isConcreteFungible = false) :
    MultiCurrencyAdapter.deposit_asset
        (mkEnv from_location try_from relay convert Bmax mint burn wd) a
        location = (.error .Undefined, []) ∧
      MultiCurrencyAdapter.withdraw_asset
        (mkEnv from_location try_from relay convert Bmax mint burn wd) a
        location = (.error .Undefined, []) ∧
      (∀ who, from_location location = some who →
        (MultiCurrencyAdapter.deposit_asset_kinded
            (mkEnv from_location try_from relay convert Bmax mint burn wd)
            a location).1 = .error .UnrecognizedAsset ∧
        (MultiCurrencyAdapter.withdraw_asset_kinded
            (mkEnv from_location try_from relay convert Bmax mint burn wd)
            a location).1 = .error .UnrecognizedAsset) := by
  have hca := from_asset_none_of_not_cf try_from relay a h
  refine ⟨?_, ?_, ?_⟩
  · cases hl : from_location location with
    | none => simp [MultiCurrencyAdapter.deposit_asset, mkEnv, hl]
    | some who =>
        simp [MultiCurrencyAdapter.deposit_asset, mkEnv, hl, hca]
  · cases hl : from_location location with
    | none => simp [MultiCurrencyAdapter.withdraw_asset, mkEnv, hl]
    | some who =>
        simp [MultiCurrencyAdapter.withdraw_asset, mkEnv, hl, hca]
  · intro who hwho
    constructor
    · simp [MultiCurrencyAdapter.deposit_asset_kinded, mkEnv, hwho, hca]
    · simp [MultiCurrencyAdapter.withdraw_asset_kinded, mkEnv, hwho, hca]

/-- C2 amended witness: the demo collaborators with the
non-concrete-fungible descriptor `AbstractFungible [] 10`. -/
theorem nonfungible_shape_rejected_witness :
    MultiCurrencyAdapter.deposit_asset envDemo (.AbstractFungible [] 10)
        [] = (.error .Undefined, []) ∧
      (MultiCurrencyAdapter.deposit_asset_kinded envDemo
          (.AbstractFungible [] 10) []).1 = .error .UnrecognizedAsset := by
  have h := @nonfungible_shape_rejected Nat Unit Unit (fun _ => some 0)
    tryFrom7 CurrencyId.Native fromRelayChainBalance (2 ^ 128)
    (fun _ _ _ => Except.ok ()) (fun _ _ _ => Except.ok ())
    (fun _ _ _ _ => Except.ok ()) (.AbstractFungible [] 10) [] rfl
  exact ⟨h.1, (h.2.2 0 rfl).1⟩

end TokenDealer
